import Mathlib

/-!
Verification development for the Event Management System's
registration-and-attendance transaction layer.

The relational store is modelled as lists of rows (tables EVENTS, STUDENTS,
REGISTRATIONS, ATTENDANCE).  Each service operation from the source
(`registrations.py`, `attendance.py`, `reports.py`) is embedded as a pure
function taking the database state (plus the ambient clock, passed
explicitly) and returning the outcome string the Python code returns
together with the successor state.  Transactions are atomic in the source
(commit on success, rollback on failure), so each operation is one function
application; failure paths return the state unchanged.
-/

namespace EventSystem

/-- A calendar date, compared lexicographically (Python `datetime.date`
comparison semantics). -/
structure Date where
  year : Nat
  month : Nat
  day : Nat
deriving DecidableEq, Repr

/-- Python `date` strict order: `a < b` lexicographically on (year, month, day). -/
def dateLt (a b : Date) : Bool :=
  a.year < b.year ||
    (a.year == b.year && (a.month < b.month ||
      (a.month == b.month && a.day < b.day)))

/-- Zero-pad a numeral to two digits, as `%m` / `%d` in `strftime`. -/
def pad2 (n : Nat) : String :=
  if n < 10 then "0" ++ toString n else toString n

/-- Zero-pad a numeral to four digits, as `%Y` in `strftime`. -/
def pad4 (n : Nat) : String :=
  if n < 10 then "000" ++ toString n
  else if n < 100 then "00" ++ toString n
  else if n < 1000 then "0" ++ toString n
  else toString n

/-- `date.strftime("%Y-%m-%d")` from `attendance.py` line 26. -/
def formatDate (d : Date) : String :=
  pad4 d.year ++ "-" ++ pad2 d.month ++ "-" ++ pad2 d.day

/-- A row of the EVENTS table. -/
structure Event where
  event_id : Nat
  event_name : String
  event_date : Date
  venue : String
  total_slots : Nat
deriving DecidableEq, Repr

/-- A row of the STUDENTS table. -/
structure Student where
  student_id : String
  name : String
  email : String
deriving DecidableEq, Repr

/-- A row of the REGISTRATIONS table; `reg_date` is the insertion
timestamp (`datetime.datetime.now()`), modelled as a Nat tick. -/
structure Registration where
  event_id : Nat
  student_id : String
  reg_date : Nat
deriving DecidableEq, Repr

/-- A row of the ATTENDANCE table; `attended` holds whatever string the
caller supplied (the source does not validate it). -/
structure Attendance where
  event_id : Nat
  student_id : String
  attended : String
deriving DecidableEq, Repr

/-- The relational store: the four tables the transaction layer touches. -/
structure DBState where
  events : List Event
  students : List Student
  registrations : List Registration
  attendance : List Attendance
deriving DecidableEq, Repr

/-- The WHERE clause `event_id = :e AND student_id = :s` on REGISTRATIONS. -/
def regMatch (event_id : Nat) (student_id : String) (r : Registration) : Bool :=
  r.event_id == event_id && r.student_id == student_id

/-- The WHERE clause `event_id = :e AND student_id = :s` on ATTENDANCE. -/
def attMatch (event_id : Nat) (student_id : String) (a : Attendance) : Bool :=
  a.event_id == event_id && a.student_id == student_id

/-- `SELECT ... FROM EVENTS WHERE event_id = :event_id` -/
def findEvent (db : DBState) (event_id : Nat) : Option Event :=
  db.events.find? (fun e => e.event_id == event_id)

/-- `SELECT name FROM STUDENTS WHERE student_id = :student_id` -/
def findStudent (db : DBState) (student_id : String) : Option Student :=
  db.students.find? (fun s => s.student_id == student_id)

/-- `SELECT reg_id FROM REGISTRATIONS WHERE event_id = :e AND student_id = :s` -/
def findRegistration (db : DBState) (event_id : Nat) (student_id : String) :
    Option Registration :=
  db.registrations.find? (regMatch event_id student_id)

/-- `SELECT COUNT(*) FROM REGISTRATIONS WHERE event_id = :event_id` -/
def regCount (db : DBState) (event_id : Nat) : Nat :=
  (db.registrations.filter (fun r => r.event_id == event_id)).length

/-- The registration rows for an (event, student) pair. -/
def regRows (db : DBState) (event_id : Nat) (student_id : String) :
    List Registration :=
  db.registrations.filter (regMatch event_id student_id)

/-- The attendance rows for an (event, student) pair. -/
def attRows (db : DBState) (event_id : Nat) (student_id : String) :
    List Attendance :=
  db.attendance.filter (attMatch event_id student_id)

/-- `registrations.register_student_for_event`: permission check, event
lookup (with row lock), student lookup, duplicate check, capacity check,
then insert.  `now` is the ambient `datetime.datetime.now()` timestamp.
Returns the Python outcome string and the post-transaction state. -/
def register_student_for_event (current_user_role : String) (event_id : Nat)
    (student_id : String) (now : Nat) (db : DBState) : String × DBState :=
  if ¬ (current_user_role = "admin" ∨ current_user_role = "volunteer") then
    ("Error: You do not have the required permissions to perform this action.", db)
  else
    match findEvent db event_id with
    | none => ("Error: Event not found.", db)
    | some ev =>
      if (findStudent db student_id).isNone then
        ("Error: Student not found.", db)
      else if (findRegistration db event_id student_id).isSome then
        ("Info: Student is already registered for this event.", db)
      else if ev.total_slots ≤ regCount db event_id then
        ("Error: Event is full. Cannot register.", db)
      else
        ("Success: Student registered successfully.",
          { db with registrations :=
              db.registrations ++ [⟨event_id, student_id, now⟩] })

/-- `registrations.cancel_registration`: permission check, then delete the
attendance rows for the pair, then the registration rows, in one
transaction; returns Success unconditionally after the deletes. -/
def cancel_registration (current_user_role : String) (event_id : Nat)
    (student_id : String) (db : DBState) : String × DBState :=
  if ¬ (current_user_role = "admin" ∨ current_user_role = "volunteer") then
    ("Error: You do not have the required permissions to perform this action.", db)
  else
    ("Success: Registration canceled successfully.",
      { db with
        attendance := db.attendance.filter
          (fun a => ! attMatch event_id student_id a),
        registrations := db.registrations.filter
          (fun r => ! regMatch event_id student_id r) })

/-- The MERGE statement of `attendance.mark_attendance`: when a row for
(event, student) is matched its `attended` column is updated, otherwise a
new row is inserted. -/
def mergeAttendance (rows : List Attendance) (event_id : Nat)
    (student_id : String) (status : String) : List Attendance :=
  if rows.any (attMatch event_id student_id) then
    rows.map (fun a =>
      if attMatch event_id student_id a then
        { a with attended := status }
      else a)
  else
    rows ++ [⟨event_id, student_id, status⟩]

/-- `attendance.mark_attendance`: event lookup, date check against
`datetime.date.today()` (passed as `today`), registration prerequisite
check, then the MERGE upsert on ATTENDANCE. -/
def mark_attendance (event_id : Nat) (student_id : String)
    (attended_status : String) (today : Date) (db : DBState) : String × DBState :=
  match findEvent db event_id with
  | none => ("Error: Event not found.", db)
  | some ev =>
    if dateLt today ev.event_date then
      ("Error: Attendance can only be marked on or after the event date (" ++
        formatDate ev.event_date ++ ").", db)
    else if (findRegistration db event_id student_id).isNone then
      ("Error: Cannot mark attendance for a student who is not registered for this event.", db)
    else
      ("Success: Attendance record saved successfully.",
        { db with attendance :=
            mergeAttendance db.attendance event_id student_id attended_status })

/-- `attendance.mark_attendance` invoked without the optional
`attended_status` argument, which the Python signature defaults to `'Y'`. -/
def mark_attendance_default (event_id : Nat) (student_id : String)
    (today : Date) (db : DBState) : String × DBState :=
  mark_attendance event_id student_id "Y" today db

/-- `SELECT COUNT(*) FROM ATTENDANCE WHERE event_id = :e AND attended = 'Y'` -/
def attendedCount (db : DBState) (event_id : Nat) : Nat :=
  (db.attendance.filter (fun a => a.event_id == event_id && a.attended == "Y")).length

/-- The dictionary `reports.get_event_statistics` returns on success.
The Python float percentage is idealised as a rational number. -/
structure EventStats where
  event_name : String
  registered : Nat
  attended : Nat
  percentage : ℚ
deriving DecidableEq, Repr

/-- Round to the nearest integer, ties to the even integer: the rounding
mode of Python's built-in `round`.  Computed on the numerator and
denominator with integer arithmetic so that it evaluates inside the
kernel: with `f = ⌊q⌋` and remainder `r = num - f * den`, the fractional
part `r / den` is compared against `1 / 2` by comparing `2 * r` with
`den`. -/
def roundHalfEven (q : ℚ) : ℤ :=
  let f : ℤ := Int.fdiv q.num q.den
  let r : ℤ := q.num - f * (q.den : ℤ)
  if 2 * r < (q.den : ℤ) then f
  else if (q.den : ℤ) < 2 * r then f + 1
  else if f % 2 = 0 then f else f + 1

/-- Python `round(x, 2)`, idealised over the rationals. -/
def pyRound2 (q : ℚ) : ℚ :=
  (roundHalfEven (q * 100) : ℚ) / 100

/-- `reports.get_event_statistics`: `None` when the event does not exist,
otherwise the name, the registered and attended counts, and the rounded
attendance percentage (0 when nobody is registered, avoiding the division
by zero). -/
def get_event_statistics (db : DBState) (event_id : Nat) : Option EventStats :=
  match findEvent db event_id with
  | none => none
  | some ev =>
    let total_registered := regCount db event_id
    let total_attended := attendedCount db event_id
    let percentage : ℚ :=
      if 0 < total_registered then
        ((total_attended : ℚ) / (total_registered : ℚ)) * 100
      else 0
    some { event_name := ev.event_name, registered := total_registered,
           attended := total_attended, percentage := pyRound2 percentage }

/-- The single-quote character `reports.sanitize_for_csv` prepends
(codepoint 39). -/
def squote : String := String.mk [Char.ofNat 39]

/-- Whether a string begins with one of the formula-injection leaders,
i.e. Python `value.startswith(("=", "+", "-", "@"))`. -/
def startsBad (value : String) : Bool :=
  match value.data with
  | [] => false
  | c :: _ => c == '=' || c == '+' || c == '-' || c == '@'

/-- `reports.sanitize_for_csv`: prepend a single quote to a value that
starts with `=`, `+`, `-` or `@`; other values pass through unchanged. -/
def sanitize_for_csv (value : String) : String :=
  if startsBad value then squote ++ value else value

/-- `NVL(a.attended, "N")` for one registration row: the attendance status
of the pair, defaulting to `"N"` when no ATTENDANCE row exists. -/
def attendanceStatusFor (db : DBState) (event_id : Nat) (student_id : String) :
    String :=
  match db.attendance.find? (attMatch event_id student_id) with
  | none => "N"
  | some a => a.attended

/-- The row set of the export query in `reports.export_attendance_to_csv`:
REGISTRATIONS joined with STUDENTS, left-joined with ATTENDANCE, one
`[student_id, name, status]` row per registration of the event. -/
def attendance_report_rows (db : DBState) (event_id : Nat) :
    List (List String) :=
  (db.registrations.filter (fun r => r.event_id == event_id)).filterMap
    (fun r => (findStudent db r.student_id).map
      (fun s => [s.student_id, s.name, attendanceStatusFor db event_id r.student_id]))

/-- The cell matrix `reports.export_attendance_to_csv` writes (line 132):
every cell passed through `sanitize_for_csv` before reaching the CSV
writer. -/
def export_attendance_rows (db : DBState) (event_id : Nat) :
    List (List String) :=
  (attendance_report_rows db event_id).map (fun row => row.map sanitize_for_csv)



/-- A sample store for the statistics report: one event with three
registrations, one of which attended. -/
def statsDb : DBState :=
  ⟨[⟨1, "E", ⟨2020, 1, 1⟩, "V", 9⟩],
   [⟨"S001", "Alice", "a"⟩, ⟨"S002", "Bob", "b"⟩, ⟨"S003", "Cara", "c"⟩],
   [⟨1, "S001", 0⟩, ⟨1, "S002", 0⟩, ⟨1, "S003", 0⟩],
   [⟨1, "S001", "Y"⟩]⟩

/-- A sample store for the export: one registered student whose name
starts with a formula-injection leader. -/
def exportDb : DBState :=
  ⟨[⟨1, "E", ⟨2020, 1, 1⟩, "V", 5⟩], [⟨"S002", "=Bob", "b"⟩], [⟨1, "S002", 0⟩], []⟩
end EventSystem
section Theorems

namespace EventSystem

/-- Appending a registration row for `event_id` raises its registration
count by exactly one. -/
theorem regCount_append (db : DBState) (event_id : Nat) (r : Registration)
    (hr : r.event_id = event_id) :
    regCount { db with registrations := db.registrations ++ [r] } event_id =
      regCount db event_id + 1 := by
  simp [regCount, List.filter_append, hr]

end EventSystem

open EventSystem

/-- C3: a caller whose role is neither "admin" nor "volunteer" gets the
permission-denied outcome from both `register_student_for_event` and
`cancel_registration`, and the database state is returned unchanged, for
every event and student identifier. -/
theorem register_cancel_permission_denied (role : String) (event_id : Nat)
    (student_id : String) (now : Nat) (db : DBState)
    (h1 : role ≠ "admin") (h2 : role ≠ "volunteer") :
    register_student_for_event role event_id student_id now db =
      ("Error: You do not have the required permissions to perform this action.", db) ∧
    cancel_registration role event_id student_id db =
      ("Error: You do not have the required permissions to perform this action.", db) := by
  have hr : ¬ (role = "admin" ∨ role = "volunteer") := by
    rintro (h | h)
    · exact h1 h
    · exact h2 h
  constructor
  · simp [register_student_for_event, hr]
  · simp [cancel_registration, hr]

/-- Witness for C3 at a concrete unprivileged role and database. -/
theorem register_cancel_permission_denied_witness :
    register_student_for_event "guest" 1 "S001" 5 ⟨[], [], [], []⟩ =
      ("Error: You do not have the required permissions to perform this action.",
        ⟨[], [], [], []⟩) ∧
    cancel_registration "guest" 1 "S001" ⟨[], [], [], []⟩ =
      ("Error: You do not have the required permissions to perform this action.",
        ⟨[], [], [], []⟩) :=
  register_cancel_permission_denied "guest" 1 "S001" 5 ⟨[], [], [], []⟩
    (by decide) (by decide)

/-- C2: when a registration for the (event, student) pair already exists,
`register_student_for_event` called by a privileged role returns the
"already registered" Info outcome — not Success and not an error — and
returns the state unchanged, regardless of capacity (the duplicate check
precedes the capacity check). -/
theorem register_already_registered (role : String) (event_id : Nat)
    (student_id : String) (now : Nat) (db : DBState)
    (hrole : role = "admin" ∨ role = "volunteer")
    (hev : (findEvent db event_id).isSome = true)
    (hstu : (findStudent db student_id).isSome = true)
    (hdup : (findRegistration db event_id student_id).isSome = true) :
    register_student_for_event role event_id student_id now db =
      ("Info: Student is already registered for this event.", db) := by
  obtain ⟨st, hst⟩ := Option.isSome_iff_exists.mp hstu
  unfold register_student_for_event
  rw [if_neg (not_not_intro hrole)]
  split
  · rename_i heq
    rw [heq] at hev
    simp at hev
  · rename_i ev' heq
    rw [if_neg (by rw [hst]; simp)]
    rw [if_pos hdup]

/-- Witness for C2: a full event (capacity 1, one registration) where the
registered student registers again and receives Info. -/
theorem register_already_registered_witness :
    register_student_for_event "volunteer" 1 "S001" 9
      ⟨[⟨1, "E", ⟨2025, 1, 1⟩, "V", 1⟩], [⟨"S001", "Alice", "a"⟩], [⟨1, "S001", 0⟩], []⟩ =
      ("Info: Student is already registered for this event.",
        ⟨[⟨1, "E", ⟨2025, 1, 1⟩, "V", 1⟩], [⟨"S001", "Alice", "a"⟩], [⟨1, "S001", 0⟩], []⟩) :=
  register_already_registered "volunteer" 1 "S001" 9 _
    (Or.inr rfl) (by decide) (by decide) (by decide)

/-- C1: with the event present and the other checks passing, a
registration count at or above the event's capacity makes
`register_student_for_event` fail with the capacity-exceeded outcome and
leave the state unchanged; and whenever the call returns Success, the
event's registration count in the resulting state still does not exceed
the capacity. -/
theorem register_capacity_exceeded_and_bound (role : String) (event_id : Nat)
    (student_id : String) (now : Nat) (db : DBState) (ev : Event)
    (hev : findEvent db event_id = some ev) :
    ((role = "admin" ∨ role = "volunteer") →
      (findStudent db student_id).isSome = true →
      findRegistration db event_id student_id = none →
      ev.total_slots ≤ regCount db event_id →
      register_student_for_event role event_id student_id now db =
        ("Error: Event is full. Cannot register.", db)) ∧
    (∀ db2 : DBState,
      register_student_for_event role event_id student_id now db =
        ("Success: Student registered successfully.", db2) →
      regCount db2 event_id ≤ ev.total_slots) := by
  constructor
  · intro hrole hstu hdup hfull
    obtain ⟨st, hst⟩ := Option.isSome_iff_exists.mp hstu
    unfold register_student_for_event
    rw [if_neg (not_not_intro hrole)]
    split
    · rename_i heq
      rw [heq] at hev
      cases hev
    · rename_i ev' heq
      rw [hev] at heq
      injection heq with heq'
      subst heq'
      rw [if_neg (by rw [hst]; simp)]
      rw [if_neg (by rw [hdup]; simp)]
      rw [if_pos hfull]
  · intro db2 hsucc
    unfold register_student_for_event at hsucc
    by_cases hrole : ¬ (role = "admin" ∨ role = "volunteer")
    · rw [if_pos hrole] at hsucc
      simp at hsucc
    · rw [if_neg hrole] at hsucc
      rw [hev] at hsucc
      simp only [] at hsucc
      by_cases hstu : (findStudent db student_id).isNone = true
      · rw [if_pos hstu] at hsucc
        simp at hsucc
      · rw [if_neg hstu] at hsucc
        by_cases hdup : (findRegistration db event_id student_id).isSome = true
        · rw [if_pos hdup] at hsucc
          simp at hsucc
        · rw [if_neg hdup] at hsucc
          by_cases hfull : ev.total_slots ≤ regCount db event_id
          · rw [if_pos hfull] at hsucc
            simp at hsucc
          · rw [if_neg hfull] at hsucc
            have hdb2 : db2 =
                { db with registrations :=
                    db.registrations ++ [⟨event_id, student_id, now⟩] } := by
              have := congrArg Prod.snd hsucc
              exact this.symm
            rw [hdb2, regCount_append db event_id _ rfl]
            omega

/-- Witness for C1: a capacity-1 event already holding one registration
rejects a further student, and this is produced by the theorem. -/
theorem register_capacity_exceeded_and_bound_witness :
    register_student_for_event "admin" 1 "S001" 7
      ⟨[⟨1, "E", ⟨2025, 1, 1⟩, "V", 1⟩],
       [⟨"S001", "Alice", "a"⟩, ⟨"S002", "Bob", "b"⟩], [⟨1, "S002", 0⟩], []⟩ =
      ("Error: Event is full. Cannot register.",
        ⟨[⟨1, "E", ⟨2025, 1, 1⟩, "V", 1⟩],
         [⟨"S001", "Alice", "a"⟩, ⟨"S002", "Bob", "b"⟩], [⟨1, "S002", 0⟩], []⟩) :=
  (register_capacity_exceeded_and_bound "admin" 1 "S001" 7 _ ⟨1, "E", ⟨2025, 1, 1⟩, "V", 1⟩
    (by decide)).1 (Or.inl rfl) (by decide) (by decide) (by decide)

end Theorems

namespace EventSystem

/-- When the event exists, its date is not in the future, and the student
is registered, `mark_attendance` returns Success and replaces the
ATTENDANCE table by the MERGE result. -/
theorem mark_success_shape (event_id : Nat) (student_id : String)
    (attended_status : String) (today : Date) (db : DBState) (ev : Event)
    (hev : findEvent db event_id = some ev)
    (hpast : dateLt today ev.event_date = false)
    (hreg : (findRegistration db event_id student_id).isSome = true) :
    mark_attendance event_id student_id attended_status today db =
      ("Success: Attendance record saved successfully.",
        { db with attendance :=
            mergeAttendance db.attendance event_id student_id attended_status }) := by
  unfold mark_attendance
  split
  · rename_i heq
    rw [heq] at hev
    cases hev
  · rename_i ev' heq
    rw [hev] at heq
    injection heq with h
    subst h
    rw [if_neg (by rw [hpast]; simp)]
    rw [if_neg (by obtain ⟨r, hr⟩ := Option.isSome_iff_exists.mp hreg; rw [hr]; simp)]

end EventSystem

/-- C4: for an existing event dated strictly after today,
`mark_attendance` fails with the temporal-constraint message, which embeds
the event's formatted date, and the state is unchanged — with no
assumption on the student's registration or attendance. -/
theorem mark_future_event_rejected (event_id : Nat) (student_id : String)
    (attended_status : String) (today : EventSystem.Date) (db : EventSystem.DBState)
    (ev : EventSystem.Event)
    (hev : EventSystem.findEvent db event_id = some ev)
    (hfut : EventSystem.dateLt today ev.event_date = true) :
    EventSystem.mark_attendance event_id student_id attended_status today db =
      ("Error: Attendance can only be marked on or after the event date (" ++
        EventSystem.formatDate ev.event_date ++ ").", db) := by
  unfold EventSystem.mark_attendance
  split
  · rename_i heq
    rw [heq] at hev
    cases hev
  · rename_i ev' heq
    rw [hev] at heq
    injection heq with h
    subst h
    rw [if_pos hfut]

/-- Witness for C4: a 2030 event rejected on a 2025 day, for a student
who is registered, with the date printed in the message. -/
theorem mark_future_event_rejected_witness :
    EventSystem.mark_attendance 2 "S001" "Y" ⟨2025, 6, 1⟩
      ⟨[⟨2, "F", ⟨2030, 1, 5⟩, "V", 5⟩], [⟨"S001", "Alice", "a"⟩], [⟨2, "S001", 0⟩], []⟩ =
      ("Error: Attendance can only be marked on or after the event date (2030-01-05).",
        ⟨[⟨2, "F", ⟨2030, 1, 5⟩, "V", 5⟩], [⟨"S001", "Alice", "a"⟩], [⟨2, "S001", 0⟩], []⟩) := by
  rw [mark_future_event_rejected 2 "S001" "Y" ⟨2025, 6, 1⟩ _ ⟨2, "F", ⟨2030, 1, 5⟩, "V", 5⟩
    (by decide) (by decide)]
  decide

/-- C5: for an existing event dated on or before today, a student without
a registration row gets the prerequisite-violation outcome from
`mark_attendance` and the state — including any stale attendance row — is
unchanged. -/
theorem mark_unregistered_rejected (event_id : Nat) (student_id : String)
    (attended_status : String) (today : EventSystem.Date) (db : EventSystem.DBState)
    (ev : EventSystem.Event)
    (hev : EventSystem.findEvent db event_id = some ev)
    (hpast : EventSystem.dateLt today ev.event_date = false)
    (hreg : EventSystem.findRegistration db event_id student_id = none) :
    EventSystem.mark_attendance event_id student_id attended_status today db =
      ("Error: Cannot mark attendance for a student who is not registered for this event.",
        db) := by
  unfold EventSystem.mark_attendance
  split
  · rename_i heq
    rw [heq] at hev
    cases hev
  · rename_i ev' heq
    rw [hev] at heq
    injection heq with h
    subst h
    rw [if_neg (by rw [hpast]; simp)]
    rw [if_pos (by rw [hreg]; rfl)]

/-- Witness for C5: unregistered student, past event, and a stale
attendance row already present; the call is rejected and the stale row is
untouched. -/
theorem mark_unregistered_rejected_witness :
    EventSystem.mark_attendance 1 "S001" "Y" ⟨2025, 6, 1⟩
      ⟨[⟨1, "P", ⟨2020, 1, 1⟩, "V", 5⟩], [⟨"S001", "Alice", "a"⟩], [], [⟨1, "S001", "Y"⟩]⟩ =
      ("Error: Cannot mark attendance for a student who is not registered for this event.",
        ⟨[⟨1, "P", ⟨2020, 1, 1⟩, "V", 5⟩], [⟨"S001", "Alice", "a"⟩], [], [⟨1, "S001", "Y"⟩]⟩) :=
  mark_unregistered_rejected 1 "S001" "Y" ⟨2025, 6, 1⟩ _ ⟨1, "P", ⟨2020, 1, 1⟩, "V", 5⟩
    (by decide) (by decide) (by decide)

namespace EventSystem

/-- Filtering the pair's rows commutes with the MERGE update map: rows of
other pairs are untouched and matched rows keep their keys. -/
theorem filter_map_update (rows : List Attendance) (event_id : Nat)
    (student_id : String) (st : String) :
    (rows.map (fun a =>
        if attMatch event_id student_id a then { a with attended := st }
        else a)).filter (attMatch event_id student_id) =
      (rows.filter (attMatch event_id student_id)).map
        (fun a => { a with attended := st }) := by
  induction rows with
  | nil => rfl
  | cons a t ih =>
    by_cases h : attMatch event_id student_id a = true
    · have hupd : attMatch event_id student_id { a with attended := st } = true := h
      simp only [List.map_cons, if_pos h, List.filter_cons, hupd, h, if_true, ih]
    · have h' : attMatch event_id student_id a = false := by simpa using h
      simp [List.filter_cons, if_neg h, h', ih]

/-- The pair's rows after the MERGE of `mark_attendance`: a single fresh
row when none existed, otherwise the existing rows with their status
replaced. -/
theorem filter_mergeAttendance (rows : List Attendance) (event_id : Nat)
    (student_id : String) (st : String) :
    (mergeAttendance rows event_id student_id st).filter (attMatch event_id student_id) =
      if rows.filter (attMatch event_id student_id) = [] then
        [⟨event_id, student_id, st⟩]
      else
        (rows.filter (attMatch event_id student_id)).map
          (fun a => { a with attended := st }) := by
  unfold mergeAttendance
  by_cases h : rows.any (attMatch event_id student_id) = true
  · rw [if_pos h]
    have hne : rows.filter (attMatch event_id student_id) ≠ [] := by
      obtain ⟨x, hx, hpx⟩ := List.any_eq_true.mp h
      intro hnil
      have hm : x ∈ rows.filter (attMatch event_id student_id) :=
        List.mem_filter.mpr ⟨hx, hpx⟩
      rw [hnil] at hm
      cases hm
    rw [if_neg hne]
    exact filter_map_update rows event_id student_id st
  · rw [if_neg h]
    have hnil : rows.filter (attMatch event_id student_id) = [] := by
      rw [List.filter_eq_nil_iff]
      intro a ha hpa
      exact h (List.any_eq_true.mpr ⟨a, ha, hpa⟩)
    rw [if_pos hnil, List.filter_append, hnil]
    simp [attMatch]

/-- When the pair is already present, the MERGE updates in place and the
ATTENDANCE table keeps its length. -/
theorem mergeAttendance_length_of_any (rows : List Attendance) (event_id : Nat)
    (student_id : String) (st : String)
    (h : rows.any (attMatch event_id student_id) = true) :
    (mergeAttendance rows event_id student_id st).length = rows.length := by
  unfold mergeAttendance
  rw [if_pos h]
  simp

/-- A successful `mark_attendance` leaves exactly one attendance row for
the pair, holding the given status, provided the pair had at most one row
before. -/
theorem attRows_after_mark (event_id : Nat) (student_id : String) (st : String)
    (today : Date) (db : DBState) (ev : Event)
    (hev : findEvent db event_id = some ev)
    (hpast : dateLt today ev.event_date = false)
    (hreg : (findRegistration db event_id student_id).isSome = true)
    (hlen : (attRows db event_id student_id).length ≤ 1) :
    attRows (mark_attendance event_id student_id st today db).2 event_id student_id =
      [⟨event_id, student_id, st⟩] := by
  rw [mark_success_shape event_id student_id st today db ev hev hpast hreg]
  show (mergeAttendance db.attendance event_id student_id st).filter
      (attMatch event_id student_id) = _
  rw [filter_mergeAttendance]
  by_cases h : db.attendance.filter (attMatch event_id student_id) = []
  · rw [if_pos h]
  · rw [if_neg h]
    simp only [attRows] at hlen
    obtain ⟨a, ha⟩ : ∃ a, db.attendance.filter (attMatch event_id student_id) = [a] := by
      rcases hc : db.attendance.filter (attMatch event_id student_id) with _ | ⟨a, t⟩
      · exact absurd hc h
      · rcases t with _ | ⟨b, t2⟩
        · exact ⟨a, rfl⟩
        · rw [hc] at hlen
          simp at hlen
    rw [ha]
    have hp : attMatch event_id student_id a = true := by
      have hmem : a ∈ db.attendance.filter (attMatch event_id student_id) := by
        rw [ha]
        exact List.mem_singleton.mpr rfl
      exact (List.mem_filter.mp hmem).2
    simp only [attMatch, Bool.and_eq_true, beq_iff_eq] at hp
    cases a with
    | mk e s t =>
      simp only [List.map_cons, List.map_nil]
      simp at hp
      simp [hp.1, hp.2]

end EventSystem

open EventSystem

/-- C6: starting from a state whose (event, student) pair has at most one
attendance row, with the student registered and the event not in the
future, marking "Y" twice leaves exactly one attendance row for the pair
with status "Y", and a further mark "N" updates that same single row to
"N" without growing the ATTENDANCE table. -/
theorem mark_upsert_no_duplicates (event_id : Nat) (student_id : String)
    (today : Date) (db db1 db2 db3 : DBState) (ev : Event)
    (hev : findEvent db event_id = some ev)
    (hpast : dateLt today ev.event_date = false)
    (hreg : (findRegistration db event_id student_id).isSome = true)
    (hlen : (attRows db event_id student_id).length ≤ 1)
    (hdb1 : db1 = (mark_attendance event_id student_id "Y" today db).2)
    (hdb2 : db2 = (mark_attendance event_id student_id "Y" today db1).2)
    (hdb3 : db3 = (mark_attendance event_id student_id "N" today db2).2) :
    attRows db2 event_id student_id = [⟨event_id, student_id, "Y"⟩] ∧
    attRows db3 event_id student_id = [⟨event_id, student_id, "N"⟩] ∧
    db3.attendance.length = db2.attendance.length := by
  have hfix1 :
      db1 = { db with attendance := mergeAttendance db.attendance event_id student_id "Y" } := by
    rw [hdb1, mark_success_shape event_id student_id "Y" today db ev hev hpast hreg]
  have hev1 : findEvent db1 event_id = some ev := by rw [hfix1]; exact hev
  have hreg1 : (findRegistration db1 event_id student_id).isSome = true := by
    rw [hfix1]; exact hreg
  have h1 : attRows db1 event_id student_id = [⟨event_id, student_id, "Y"⟩] := by
    rw [hdb1]
    exact attRows_after_mark event_id student_id "Y" today db ev hev hpast hreg hlen
  have hlen1 : (attRows db1 event_id student_id).length ≤ 1 := by rw [h1]; simp
  have h2 : attRows db2 event_id student_id = [⟨event_id, student_id, "Y"⟩] := by
    rw [hdb2]
    exact attRows_after_mark event_id student_id "Y" today db1 ev hev1 hpast hreg1 hlen1
  have hfix2 :
      db2 = { db1 with attendance := mergeAttendance db1.attendance event_id student_id "Y" } := by
    rw [hdb2, mark_success_shape event_id student_id "Y" today db1 ev hev1 hpast hreg1]
  have hev2 : findEvent db2 event_id = some ev := by rw [hfix2]; exact hev1
  have hreg2 : (findRegistration db2 event_id student_id).isSome = true := by
    rw [hfix2]; exact hreg1
  have hlen2 : (attRows db2 event_id student_id).length ≤ 1 := by rw [h2]; simp
  have h3 : attRows db3 event_id student_id = [⟨event_id, student_id, "N"⟩] := by
    rw [hdb3]
    exact attRows_after_mark event_id student_id "N" today db2 ev hev2 hpast hreg2 hlen2
  have hany2 : db2.attendance.any (attMatch event_id student_id) = true := by
    rw [List.any_eq_true]
    have hmem : (⟨event_id, student_id, "Y"⟩ : Attendance) ∈
        attRows db2 event_id student_id := by
      rw [h2]
      exact List.mem_singleton.mpr rfl
    simp only [attRows] at hmem
    have hm := List.mem_filter.mp hmem
    exact ⟨_, hm.1, hm.2⟩
  have hlen3 : db3.attendance.length = db2.attendance.length := by
    rw [hdb3, mark_success_shape event_id student_id "N" today db2 ev hev2 hpast hreg2]
    show (mergeAttendance db2.attendance event_id student_id "N").length = _
    exact mergeAttendance_length_of_any db2.attendance event_id student_id "N" hany2
  exact ⟨h2, h3, hlen3⟩

/-- Witness for C6 on a concrete past event with one registered student. -/
theorem mark_upsert_no_duplicates_witness :
    attRows ⟨[⟨1, "P", ⟨2020, 1, 1⟩, "V", 5⟩], [⟨"S001", "Alice", "a"⟩],
        [⟨1, "S001", 0⟩], [⟨1, "S001", "Y"⟩]⟩ 1 "S001" = [⟨1, "S001", "Y"⟩] ∧
    attRows ⟨[⟨1, "P", ⟨2020, 1, 1⟩, "V", 5⟩], [⟨"S001", "Alice", "a"⟩],
        [⟨1, "S001", 0⟩], [⟨1, "S001", "N"⟩]⟩ 1 "S001" = [⟨1, "S001", "N"⟩] ∧
    (⟨[⟨1, "P", ⟨2020, 1, 1⟩, "V", 5⟩], [⟨"S001", "Alice", "a"⟩],
        [⟨1, "S001", 0⟩], [⟨1, "S001", "N"⟩]⟩ : DBState).attendance.length =
      (⟨[⟨1, "P", ⟨2020, 1, 1⟩, "V", 5⟩], [⟨"S001", "Alice", "a"⟩],
        [⟨1, "S001", 0⟩], [⟨1, "S001", "Y"⟩]⟩ : DBState).attendance.length :=
  mark_upsert_no_duplicates 1 "S001" ⟨2025, 6, 1⟩
    ⟨[⟨1, "P", ⟨2020, 1, 1⟩, "V", 5⟩], [⟨"S001", "Alice", "a"⟩], [⟨1, "S001", 0⟩], []⟩
    ⟨[⟨1, "P", ⟨2020, 1, 1⟩, "V", 5⟩], [⟨"S001", "Alice", "a"⟩], [⟨1, "S001", 0⟩],
      [⟨1, "S001", "Y"⟩]⟩
    ⟨[⟨1, "P", ⟨2020, 1, 1⟩, "V", 5⟩], [⟨"S001", "Alice", "a"⟩], [⟨1, "S001", 0⟩],
      [⟨1, "S001", "Y"⟩]⟩
    ⟨[⟨1, "P", ⟨2020, 1, 1⟩, "V", 5⟩], [⟨"S001", "Alice", "a"⟩], [⟨1, "S001", 0⟩],
      [⟨1, "S001", "N"⟩]⟩
    ⟨1, "P", ⟨2020, 1, 1⟩, "V", 5⟩
    (by decide) (by decide) (by decide) (by decide) (by decide) (by decide) (by decide)

/-- C10: `mark_attendance` does not validate its status argument: any
string is accepted and stored verbatim in the pair's attendance row, and
omitting the argument is the same call with status "Y". -/
theorem mark_accepts_any_status (event_id : Nat) (student_id : String)
    (status : String) (today : Date) (db : DBState) (ev : Event)
    (hev : findEvent db event_id = some ev)
    (hpast : dateLt today ev.event_date = false)
    (hreg : (findRegistration db event_id student_id).isSome = true)
    (hlen : (attRows db event_id student_id).length ≤ 1) :
    (mark_attendance event_id student_id status today db).1 =
      "Success: Attendance record saved successfully." ∧
    attRows (mark_attendance event_id student_id status today db).2 event_id student_id =
      [⟨event_id, student_id, status⟩] ∧
    mark_attendance_default event_id student_id today db =
      mark_attendance event_id student_id "Y" today db := by
  refine ⟨?_,
    attRows_after_mark event_id student_id status today db ev hev hpast hreg hlen, rfl⟩
  rw [mark_success_shape event_id student_id status today db ev hev hpast hreg]

/-- Witness for C10 with the non-Y/N status string "MAYBE". -/
theorem mark_accepts_any_status_witness :
    (mark_attendance 1 "S001" "MAYBE" ⟨2025, 6, 1⟩
      ⟨[⟨1, "P", ⟨2020, 1, 1⟩, "V", 5⟩], [⟨"S001", "Alice", "a"⟩],
        [⟨1, "S001", 0⟩], []⟩).1 = "Success: Attendance record saved successfully." ∧
    attRows (mark_attendance 1 "S001" "MAYBE" ⟨2025, 6, 1⟩
      ⟨[⟨1, "P", ⟨2020, 1, 1⟩, "V", 5⟩], [⟨"S001", "Alice", "a"⟩],
        [⟨1, "S001", 0⟩], []⟩).2 1 "S001" = [⟨1, "S001", "MAYBE"⟩] ∧
    mark_attendance_default 1 "S001" ⟨2025, 6, 1⟩
      ⟨[⟨1, "P", ⟨2020, 1, 1⟩, "V", 5⟩], [⟨"S001", "Alice", "a"⟩],
        [⟨1, "S001", 0⟩], []⟩ =
      mark_attendance 1 "S001" "Y" ⟨2025, 6, 1⟩
        ⟨[⟨1, "P", ⟨2020, 1, 1⟩, "V", 5⟩], [⟨"S001", "Alice", "a"⟩],
          [⟨1, "S001", 0⟩], []⟩ :=
  mark_accepts_any_status 1 "S001" "MAYBE" ⟨2025, 6, 1⟩
    ⟨[⟨1, "P", ⟨2020, 1, 1⟩, "V", 5⟩], [⟨"S001", "Alice", "a"⟩], [⟨1, "S001", 0⟩], []⟩
    ⟨1, "P", ⟨2020, 1, 1⟩, "V", 5⟩
    (by decide) (by decide) (by decide) (by decide)

open EventSystem

/-- C7: for a privileged caller, `cancel_registration` returns Success —
whether or not a registration existed — and afterwards the (event,
student) pair has no attendance row and no registration row. -/
theorem cancel_clears_pair_rows (role : String) (event_id : Nat)
    (student_id : String) (db : EventSystem.DBState)
    (hrole : role = "admin" ∨ role = "volunteer") :
    (EventSystem.cancel_registration role event_id student_id db).1 =
      "Success: Registration canceled successfully." ∧
    attRows (EventSystem.cancel_registration role event_id student_id db).2
      event_id student_id = [] ∧
    regRows (EventSystem.cancel_registration role event_id student_id db).2
      event_id student_id = [] := by
  unfold EventSystem.cancel_registration
  rw [if_neg (not_not_intro hrole)]
  refine ⟨rfl, ?_, ?_⟩
  · show (db.attendance.filter fun a => ! attMatch event_id student_id a).filter
        (attMatch event_id student_id) = []
    rw [List.filter_eq_nil_iff]
    intro a ha hpa
    have hneg := (List.mem_filter.mp ha).2
    rw [hpa] at hneg
    cases hneg
  · show (db.registrations.filter fun r => ! regMatch event_id student_id r).filter
        (regMatch event_id student_id) = []
    rw [List.filter_eq_nil_iff]
    intro r hr hpr
    have hneg := (List.mem_filter.mp hr).2
    rw [hpr] at hneg
    cases hneg

/-- Witness for C7: cancelling removes the existing registration and
attendance rows of the pair. -/
theorem cancel_clears_pair_rows_witness :
    (EventSystem.cancel_registration "admin" 1 "S001"
      ⟨[⟨1, "E", ⟨2025, 1, 1⟩, "V", 5⟩], [⟨"S001", "Alice", "a"⟩],
        [⟨1, "S001", 0⟩], [⟨1, "S001", "Y"⟩]⟩).1 =
      "Success: Registration canceled successfully." ∧
    attRows (EventSystem.cancel_registration "admin" 1 "S001"
      ⟨[⟨1, "E", ⟨2025, 1, 1⟩, "V", 5⟩], [⟨"S001", "Alice", "a"⟩],
        [⟨1, "S001", 0⟩], [⟨1, "S001", "Y"⟩]⟩).2 1 "S001" = [] ∧
    regRows (EventSystem.cancel_registration "admin" 1 "S001"
      ⟨[⟨1, "E", ⟨2025, 1, 1⟩, "V", 5⟩], [⟨"S001", "Alice", "a"⟩],
        [⟨1, "S001", 0⟩], [⟨1, "S001", "Y"⟩]⟩).2 1 "S001" = [] :=
  cancel_clears_pair_rows "admin" 1 "S001"
    ⟨[⟨1, "E", ⟨2025, 1, 1⟩, "V", 5⟩], [⟨"S001", "Alice", "a"⟩],
      [⟨1, "S001", 0⟩], [⟨1, "S001", "Y"⟩]⟩ (Or.inl rfl)

/-- C8: `get_event_statistics` returns `none` for a missing event; for an
existing event it returns the counts together with the percentage
`attended / registered * 100` rounded to two decimal places when at least
one registration exists, and percentage 0 (with no division error) when
none does. -/
theorem get_event_statistics_spec (db : EventSystem.DBState) (event_id : Nat) :
    (findEvent db event_id = none →
      get_event_statistics db event_id = none) ∧
    (∀ ev : EventSystem.Event, findEvent db event_id = some ev →
      get_event_statistics db event_id = some
        { event_name := ev.event_name, registered := regCount db event_id,
          attended := attendedCount db event_id,
          percentage :=
            if 0 < regCount db event_id then
              pyRound2 (((attendedCount db event_id : ℚ) /
                (regCount db event_id : ℚ)) * 100)
            else 0 }) := by
  constructor
  · intro h
    unfold EventSystem.get_event_statistics
    rw [h]
  · intro ev h
    unfold EventSystem.get_event_statistics
    rw [h]
    simp only []
    by_cases hpos : 0 < regCount db event_id
    · rw [if_pos hpos, if_pos hpos]
    · rw [if_neg hpos, if_neg hpos]
      have hz : pyRound2 0 = 0 := by
        unfold EventSystem.pyRound2 EventSystem.roundHalfEven
        norm_num
      rw [hz]

/-- Witness for C8: an event with three registrations and one attendee,
and a missing event id. -/
theorem get_event_statistics_spec_witness :
    get_event_statistics statsDb 1 = some
      { event_name := "E", registered := regCount statsDb 1,
        attended := attendedCount statsDb 1,
        percentage :=
          if 0 < regCount statsDb 1 then
            pyRound2 (((attendedCount statsDb 1 : ℚ) / (regCount statsDb 1 : ℚ)) * 100)
          else 0 } ∧
    get_event_statistics statsDb 2 = none :=
  ⟨(get_event_statistics_spec statsDb 1).2 ⟨1, "E", ⟨2020, 1, 1⟩, "V", 9⟩ (by decide),
   (get_event_statistics_spec statsDb 2).1 (by decide)⟩

/-- C9: `sanitize_for_csv` prepends a single quote to every value that
begins with `=`, `+`, `-` or `@`, and consequently no cell written by the
attendance export begins with one of those formula-injection leaders. -/
theorem export_neutralizes_formula_leads (db : EventSystem.DBState) (event_id : Nat) :
    (∀ v : String, startsBad v = true → sanitize_for_csv v = squote ++ v) ∧
    (∀ row ∈ export_attendance_rows db event_id, ∀ cell ∈ row,
      startsBad cell = false) := by
  have hq : ∀ v : String, startsBad (squote ++ v) = false := by
    intro v
    have hdata : (squote ++ v).data = Char.ofNat 39 :: v.data := by
      rw [String.data_append]
      rfl
    unfold EventSystem.startsBad
    rw [hdata]
    rfl
  constructor
  · intro v hv
    unfold EventSystem.sanitize_for_csv
    rw [if_pos hv]
  · intro row hrow cell hcell
    unfold EventSystem.export_attendance_rows at hrow
    obtain ⟨row0, hrow0, hmap⟩ := List.mem_map.mp hrow
    subst hmap
    obtain ⟨c0, hc0, hcm⟩ := List.mem_map.mp hcell
    subst hcm
    unfold EventSystem.sanitize_for_csv
    by_cases h : startsBad c0 = true
    · rw [if_pos h]
      exact hq c0
    · rw [if_neg h]
      simpa using h

/-- Witness for C9: the exported row of a student named "=Bob" carries the
neutralized name, and the sanitized cell no longer leads with '='. -/
theorem export_neutralizes_formula_leads_witness :
    sanitize_for_csv "=Bob" = squote ++ "=Bob" ∧
    startsBad (squote ++ "=Bob") = false :=
  ⟨(export_neutralizes_formula_leads exportDb 1).1 "=Bob" (by decide),
   (export_neutralizes_formula_leads exportDb 1).2 ["S002", squote ++ "=Bob", "N"]
     (by decide) (squote ++ "=Bob") (by decide)⟩
